import Mathlib

/-!
Verification of the maple-west-downloader repository against its
natural-language specification.

The Python sources (`unit.py`, `main.py`, `qualitychecker.py`) are shallowly
embedded below: pure fragments become Lean functions, stateful methods become
explicit state-passing functions, pandas DataFrames become lists of rows,
Python floats become an explicit `FloatVal` type over `ℚ` (with distinguished
`nan` / `inf` values where the source's comparisons depend on them), and
fallible operations return `Option`.  External effects (HTTP fetches, the
cloud-storage API, the parse behaviour of Python's `float` and of
`pd.to_datetime`) are passed in as function parameters so that every control
path of the source is represented.

String primitives (`split`, `replace`, `endswith`, substring containment,
digit parsing) are implemented by structural recursion over `List Char` so
that every definition evaluates inside the kernel.
-/

namespace MapleWest

/-! ### String primitives (models of the Python string operations used) -/

/-- If `pat` is a prefix of `s`, return the remainder of `s`; else `none`. -/
def dropPrefixChars : List Char → List Char → Option (List Char)
  | [], s => some s
  | _ :: _, [] => none
  | p :: ps, c :: cs => if p = c then dropPrefixChars ps cs else none

/-- Fuel-driven worker for `splitOnStr`; with fuel at least the length of the
subject string it performs an exact left-to-right split on `pat`. -/
def splitOnCharsAux (pat : List Char) : ℕ → List Char → List Char → List (List Char)
  | 0, s, acc => [acc.reverse ++ s]
  | _ + 1, [], acc => [acc.reverse]
  | fuel + 1, c :: cs, acc =>
    match dropPrefixChars pat (c :: cs) with
    | some rest => acc.reverse :: splitOnCharsAux pat fuel rest []
    | none => splitOnCharsAux pat fuel cs (c :: acc)

/-- Python `s.split(pat)` for a non-empty separator (left-to-right,
non-overlapping; a trailing separator yields a final empty field). -/
def splitOnStr (s pat : String) : List String :=
  if pat = "" then [s]
  else (splitOnCharsAux pat.toList (s.toList.length + 1) s.toList []).map List.asString

/-- Fuel-driven worker for `replaceStr`. -/
def replaceCharsAux (pat rep : List Char) : ℕ → List Char → List Char
  | 0, s => s
  | _ + 1, [] => []
  | fuel + 1, c :: cs =>
    match dropPrefixChars pat (c :: cs) with
    | some rest => rep ++ replaceCharsAux pat rep fuel rest
    | none => c :: replaceCharsAux pat rep fuel cs

/-- Python `s.replace(pat, rep)` for a non-empty `pat` (all non-overlapping
occurrences, left to right). -/
def replaceStr (s pat rep : String) : String :=
  if pat = "" then s
  else (replaceCharsAux pat.toList rep.toList (s.toList.length + 1) s.toList).asString

/-- Python `s.endswith(pat)`. -/
def endsWithStr (s pat : String) : Bool :=
  pat.toList.reverse.isPrefixOf s.toList.reverse

/-- Python `pat in s` (substring containment). -/
def infixOfChars (pat : List Char) : List Char → Bool
  | [] => pat.isEmpty
  | c :: cs => (dropPrefixChars pat (c :: cs)).isSome || infixOfChars pat cs

/-- Python `pat in s` on strings. -/
def containsStr (s pat : String) : Bool :=
  infixOfChars pat.toList s.toList

/-- Python `int(s)` restricted to the plain digit strings this system
produces (the formatter prints counts in base 10 with no sign). -/
def parseNat (s : String) : Option ℕ :=
  match s.toList with
  | [] => none
  | l =>
      if l.all Char.isDigit then
        some (l.foldl (fun a c => a * 10 + (c.toNat - 48)) 0)
      else none

/-- Python `s[:n]`. -/
def takeStr (s : String) (n : ℕ) : String :=
  (s.toList.take n).asString

/-- Python `len(s)`. -/
def strLen (s : String) : ℕ :=
  s.toList.length

/-- Association-list lookup, the model of a Python `dict` indexed by a key
with decidable equality (`google_paths[unit_no]`, `month in report.index`). -/
def alookup {κ β : Type} [DecidableEq κ] (k : κ) : List (κ × β) → Option β
  | [] => none
  | (k', v) :: rest => if k = k' then some v else alookup k rest

/-! ### Data quality classification (`QualityChecker._check_data_quality`) -/

/-- Result of Python `float(s)`: `nan`, signed infinities, or a finite value
(modelled as a rational).  Which strings parse to what is supplied as a
parameter `tryFloat : String → Option FloatVal`; `none` models a raised
`ValueError`/`TypeError`. -/
inductive FloatVal
  | nan
  | inf
  | neginf
  | fin (q : ℚ)
deriving DecidableEq, Repr

/-- A value occurring in a pandas column, as distinguished by the source code:
a float `NaN` (what `pd.read_csv` yields for an absent cell; `pd.isna` is true
and `isinstance(·, float)` is also true), a Python `None` (`pd.isna` true,
not a float), a finite number, or a string. -/
inductive Cell
  | nan
  | null
  | num (q : ℚ)
  | str (s : String)
deriving DecidableEq, Repr

/-- The per-channel quality tally `[good_count, missing_count, bad_count]`
of `QualityChecker._check_data_quality` (main.py). -/
structure Counts where
  good : ℕ
  missing : ℕ
  bad : ℕ
deriving DecidableEq, Repr

/-- One iteration of the value loop of `QualityChecker._check_data_quality`
(main.py lines 56-70).  The source tests `pd.isna(value) or value == ""`
first (incrementing `missing_count`), then — in a separate `if`, not an
`elif` — tests `isinstance(value, (int, float))` and performs the range
check; strings are converted with `float(value)` where a conversion failure
increments `missing_count` and `continue`s the loop. -/
def classifyValue (minV maxV : ℚ) (tryFloat : String → Option FloatVal)
    (c : Counts) (v : Cell) : Counts :=
  match v with
  | Cell.nan =>
      -- pd.isna(nan) is true, so missing_count += 1; but nan is also a float,
      -- so the second `if` runs its range check, which fails: bad_count += 1.
      { c with missing := c.missing + 1, bad := c.bad + 1 }
  | Cell.null =>
      -- pd.isna(None) is true; None is not an int/float, second `if` skipped.
      { c with missing := c.missing + 1 }
  | Cell.num q =>
      if minV ≤ q ∧ q ≤ maxV then { c with good := c.good + 1 }
      else { c with bad := c.bad + 1 }
  | Cell.str s =>
      if s = "" then { c with missing := c.missing + 1 }
      else
        match tryFloat s with
        | none => { c with missing := c.missing + 1 }
        | some v =>
            match v with
            | FloatVal.fin q =>
                if minV ≤ q ∧ q ≤ maxV then { c with good := c.good + 1 }
                else { c with bad := c.bad + 1 }
            | _ =>
                -- float("nan") / float("inf"): `min <= v <= max` is false.
                { c with bad := c.bad + 1 }

/-- The value loop of `QualityChecker._check_data_quality` (main.py lines
52-72) over the extracted column, starting from zero counts. -/
def check_data_quality (minV maxV : ℚ) (tryFloat : String → Option FloatVal)
    (values : List Cell) : Counts :=
  values.foldl (classifyValue minV maxV tryFloat) ⟨0, 0, 0⟩

/-! ### Conditional formatting (`QualityChecker._apply_conditional_formatting`) -/

/-- Fill applied to a spreadsheet cell by
`QualityChecker._apply_conditional_formatting` (main.py). -/
inductive Fill
  | red
  | yellow
  | noFill
deriving DecidableEq, Repr

/-- `QualityChecker._format_quality_result` (main.py lines 74-78). -/
def format_quality_result (counts : Option Counts) : String :=
  match counts with
  | none => "Good: 0, Missing: 0, Bad: 0"
  | some c =>
      "Good: " ++ toString c.good ++ ", Missing: " ++ toString c.missing ++
        ", Bad: " ++ toString c.bad

/-- The count extraction of `QualityChecker._apply_conditional_formatting`
(main.py lines 86-89): `cell.value.split(', ')`, then for parts 0..2 take
`part.split(': ')[1]` and parse it with `int(...)`.  A `none` result models
the exception Python would raise on text not of the produced shape. -/
def parse_counts (s : String) : Option (ℕ × ℕ × ℕ) :=
  let parts := splitOnStr s ", "
  match parts.get? 0, parts.get? 1, parts.get? 2 with
  | some p0, some p1, some p2 =>
      match (splitOnStr p0 ": ").get? 1, (splitOnStr p1 ": ").get? 1,
          (splitOnStr p2 ": ").get? 1 with
      | some gs, some ms, some bs =>
          match parseNat gs, parseNat ms, parseNat bs with
          | some g, some m, some b => some (g, m, b)
          | _, _, _ => none
      | _, _, _ => none
  | _, _, _ => none

/-- The shading decision of `QualityChecker._apply_conditional_formatting`
(main.py lines 91-97) on already-extracted counts: with `total > 0`,
`problem_percentage = (missing + bad) / total * 100`; over 5 is red, over 1
is yellow, otherwise the cell is left unfilled. -/
def shade_of (g m b : ℕ) : Fill :=
  let total := g + m + b
  if total > 0 then
    let pct : ℚ := ((m : ℚ) + (b : ℚ)) / ((total : ℕ) : ℚ) * 100
    if pct > 5 then Fill.red
    else if pct > 1 then Fill.yellow
    else Fill.noFill
  else Fill.noFill

/-- Treatment of one populated data cell by
`QualityChecker._apply_conditional_formatting` (main.py lines 84-97): a falsy
(empty) cell is skipped, i.e. left unfilled; otherwise its text is parsed back
into counts and shaded.  `none` models the uncaught exception on unparsable
cell text.  (The source applies this to every cell outside the header row
and the period-label column, which are skipped by `iter_rows(min_row=2)` and
`row[1:]`.) -/
def apply_conditional_formatting_cell (s : String) : Option Fill :=
  if s = "" then some Fill.noFill
  else (parse_counts s).map (fun c => shade_of c.1 c.2.1 c.2.2)

/-! ### SD-card space check (`Unit.check_space`) -/

/-- Outcome of `Unit.check_space` (unit.py lines 253-261): either the
informational log line, or the warning log plus `send_email` alert. -/
inductive SpaceAction
  | info
  | alert
deriving DecidableEq, Repr

/-- Python `v > 1` on a float. -/
def fv_gt (v : FloatVal) (q : ℚ) : Bool :=
  match v with
  | FloatVal.fin x => decide (q < x)
  | FloatVal.inf => true
  | FloatVal.neginf => false
  | FloatVal.nan => false

/-- Python `v < 40` on a float. -/
def fv_lt (v : FloatVal) (q : ℚ) : Bool :=
  match v with
  | FloatVal.fin x => decide (x < q)
  | FloatVal.inf => false
  | FloatVal.neginf => true
  | FloatVal.nan => false

/-- The decision of `Unit.check_space` (unit.py line 253) on the scraped
space string: `if is_float(space) and float(space) > 1 and float(space) < 40`
logs informationally, and every other case takes the warning-plus-email
branch.  `is_float` succeeds exactly when `float(space)` parses, so the two
calls are folded into one `tryFloat` application. -/
def check_space (tryFloat : String → Option FloatVal) (space : String) :
    SpaceAction :=
  match tryFloat space with
  | some v =>
      if fv_gt v 1 && fv_lt v 40 then SpaceAction.info else SpaceAction.alert
  | none => SpaceAction.alert

/-- Python `float` restricted to plain digit strings, used to instantiate the
`tryFloat` parameter on concrete inputs. -/
def toNatFloat (s : String) : Option FloatVal :=
  (parseNat s).map (fun n => FloatVal.fin (n : ℚ))

/-! ### Row-order normalization (`Unit._fix_order`) -/

/-- The model of `pd.to_datetime(df.iloc[:, 0])` (unit.py line 96): convert
the whole first column; a single unparseable entry raises, modelled by
`none`.  `p` is the per-entry timestamp parse, yielding a time coordinate. -/
def parseCol {α : Type} (p : String → Option ℚ) :
    List (String × α) → Option (List ℚ)
  | [] => some []
  | r :: rs =>
    match p r.1, parseCol p rs with
    | some t, some ts => some (t :: ts)
    | _, _ => none

/-- `Unit._fix_order` (unit.py lines 84-104): tables with fewer than two rows
(or empty, or `None`) are returned as-is; otherwise the first column is
converted to timestamps — a parse failure is caught and the input returned
unchanged — and if the first timestamp is strictly greater than the second
the whole table is reversed, else it is returned unchanged.  A row is a pair
of the raw first-column text and the rest of the row. -/
def fix_order {α : Type} (p : String → Option ℚ) (df : List (String × α)) :
    List (String × α) :=
  if df.length < 2 then df
  else
    match parseCol p df with
    | some (t0 :: t1 :: _) => if t1 < t0 then df.reverse else df
    | _ => df

/-- Timestamp parse used on concrete inputs: plain digit strings. -/
def toNatQ (s : String) : Option ℚ :=
  (parseNat s).map (fun n => (n : ℚ))

/-! ### Unit configuration loading (`QualityChecker._load_units`,
`BulkDownloadGUI.load_units`) -/

/-- One parsed device configuration JSON (main.py lines 404-408 and
qualitychecker.py line 32): `unit_no`, `block`, `ip_address`, `port`,
`serial` and the channel-name to monitored-flag mapping.  The input of the
loaders is modelled as the directory listing paired with each file's parsed
content; the claim presupposes every JSON file is well-formed. -/
structure UnitRec where
  unit_no : ℤ
  block : ℤ
  ip_address : String
  port : String
  serial : String
  channels : List (String × Bool)
deriving DecidableEq, Repr

/-- The ordering `Unit.__lt__` sorts by (unit.py line 79): comparison of
`unit_no`, in non-strict form as used by a stable ascending sort. -/
def unitLe (a b : UnitRec) : Prop :=
  a.unit_no ≤ b.unit_no

instance : DecidableRel unitLe :=
  fun a b => inferInstanceAs (Decidable (a.unit_no ≤ b.unit_no))

instance : IsTotal UnitRec unitLe :=
  ⟨fun a b => le_total a.unit_no b.unit_no⟩

instance : IsTrans UnitRec unitLe :=
  ⟨fun _ _ _ h1 h2 => le_trans h1 h2⟩

/-- `QualityChecker._load_units` (qualitychecker.py lines 20-33) and
`BulkDownloadGUI.load_units` (main.py lines 399-409): keep the `.json`
entries of the directory listing, build one Unit per file, and return them
sorted ascending by `unit_no` (`sorted(units)` via `Unit.__lt__`, resp.
`sorted(units, key=lambda x: x.unit_no)`). -/
def load_units (files : List (String × UnitRec)) : List UnitRec :=
  List.insertionSort unitLe
    ((files.filter (fun f => endsWithStr f.1 ".json")).map Prod.snd)

/-- Demo configuration record for concrete instantiation. -/
def demoUnit (n : ℤ) : UnitRec :=
  ⟨n, 1, "10.0.0.1", "80", "SER", [("Total Energy", true)]⟩

/-! ### Quality report update (`QualityChecker.update_quality_report`) -/

/-- A report row: the formatted quality-count text per channel column. -/
abbrev Row := List String

/-- Period-label extraction from one filename
(main.py lines 158-161): `date_str = file.split('_')[-1].replace('.csv','')`,
kept only when at least 7 characters long, truncated to `date_str[:7]`. -/
def monthOf (file : String) : Option String :=
  let date_str := replaceStr ((splitOnStr file "_").getLastD "") ".csv" ""
  if 7 ≤ strLen date_str then some (takeStr date_str 7) else none

/-- The period set discovered by `update_quality_report` (main.py lines
153-163): filenames containing the data type and ending in `.csv`
contribute their (deduplicated) period labels. -/
def monthsOf (dataType : String) (files : List String) : List String :=
  ((files.filter (fun f => containsStr f dataType && endsWithStr f ".csv")).filterMap
    monthOf).dedup

/-- One iteration of the per-period loop of `update_quality_report`
(main.py lines 167-174): a period already present in the report index is
left untouched; otherwise `process_data` is consulted — a truthy result
appends a formatted row and sets `new_data_added`.  `process` returns
`none` both for the "no directory" outcome and for a falsy (empty) results
dict. -/
def updateStep (process : String → Option Row)
    (acc : List (String × Row) × Bool) (m : String) :
    List (String × Row) × Bool :=
  if (alookup m acc.1).isSome then acc
  else
    match process m with
    | some row => (acc.1 ++ [(m, row)], true)
    | none => acc

/-- The per-device body of `update_quality_report` (main.py lines 147-181):
starting from the loaded report and `new_data_added = False`, fold the
period loop; the boolean result decides whether the report is re-saved. -/
def update_quality_report_unit (process : String → Option Row)
    (months : List String) (report : List (String × Row)) :
    List (String × Row) × Bool :=
  months.foldl (updateStep process) (report, false)

/-- Demo `process_data` outcome for concrete instantiation. -/
def demoProcess : String → Option Row :=
  fun _ => some ["Good: 1, Missing: 0, Bad: 0"]

/-! ### Download with cloud-storage fallback (`Unit._download`) -/

/-- A downloaded dataset: rows of (first-column text, remaining cells). -/
abbrev DF := List (String × List String)

/-- The `google_paths` dictionary (unit.py lines 19-39): the fallback
allow-list mapping device numbers to cloud-storage folder identifiers. -/
def google_paths : List (ℤ × String) :=
  [(77, "1Z1ETfHlgitFOBx8SWqYiotkezFwL2ahb"),
   (78, "1oOKr0Kt2Jg2j_tqzv6sdRF4bEuNofxy2"),
   (79, "1NUruYAn2kafZTrUOFeMndmKHCyXnBVFM"),
   (80, "1Idx4pE-vBeRzFQXoBpiwRgfHbh-CZ5Go"),
   (81, "1Y17UL5XGQPlFf361V-9FLhP-JhAuFzaI"),
   (82, "1ud6EOvBFkXGPR8McKDEJR6Dx3y_NssiF"),
   (83, "1O08BMUVd4CnNsYYoH5l1mRYGW97AXsA5"),
   (84, "1UHTnt1gOF28LoF7QnS-JcQ69q20pdeDc"),
   (85, "1j2tTzGza7hDmwGukHo1HQFTYlMGg1qmo"),
   (86, "1pmiaLqn_M3y3Ebn3tT9LnHBvRbgHOsA6"),
   (87, "1JPCc3CIt1R5pW61DHtC24wVslnWC8QhN"),
   (2804, "1X8M-Ec0y-vl3CrJ9zZxuMUMYAVlMF7fJ"),
   (2806, "1Fh7r38--RT9_J1-e4XJnzLdQkXjD0zO5"),
   (2808, "127cFRH_0pa1eZN67dYp4H63dM4hwX_43"),
   (2810, "1euo9FBA2qem2oaa_ze0bxudcA9ZSOSVc"),
   (2812, "1KH_x8Sb7ix-KdBUJYvsGZDOB5Ec3oaei"),
   (2814, "125PAJ1RCLN4IDGVUeyh-lmvXQEhY6vMH"),
   (2816, "1uCERJeoSE2Oexa59g3Nv7SZNrzQZfHp0"),
   (2818, "17dVMIaaF0kzZofbUA4kJAIeYbVhrlNHt")]

/-- The device-number-to-folder table as written in the specification
(section 6, "Cloud-storage fallback", 18 entries), for comparison with the
source's `google_paths`. -/
def spec_google_paths : List (ℤ × String) :=
  [(77, "1Z1ETfHlgitFOBx8SWqYiotkezFwL2ahb"),
   (78, "1oOKr0Kt2Jg2j_tqzv6sdRF4bEuNofxy2"),
   (79, "1NUruYAn2kafZTrUOFeMndmKHCyXnBVFM"),
   (80, "1Idx4pE-vBeRzFQXoBpiwRgfHbh-CZ5Go"),
   (81, "1Y17UL5XGQPlFf361V-9FLhP-JhAuFzaI"),
   (82, "1ud6EOvBFkXGPR8McKDEJR6Dx3y_NssiF"),
   (83, "1O08BMUVd4CnNsYYoH5l1mRYGW97AXsA5"),
   (84, "1UHTnt1gOF28LoF7QnS-JcQ69q20pdeDc"),
   (85, "1j2tTzGza7hDmwGukHo1HQFTYlMGg1qmo"),
   (86, "1pmiaLqn_M3y3Ebn3tT9LnHBvRbgHOsA6"),
   (87, "1JPCc3CIt1R5pW61DHtC24wVslnWC8QhN"),
   (2804, "1X8M-Ec0y-vl3CrJ9zZxuMUMYAVlMF7fJ"),
   (2806, "1Fh7r38--RT9_J1-e4XJnzLdQkXjD0zO5"),
   (2808, "127cFRH_0pa1eZN67dYp4H63dM4hwX_43"),
   (2810, "1euo9FBA2qem2oaa_ze0bxudcA9ZSOSVc"),
   (2812, "1KH_x8Sb7ix-KdBUJYvsGZDOB5Ec3oaei"),
   (2814, "125PAJ1RCLN4IDGVUeyh-lmvXQEhY6vMH"),
   (2816, "1uCERJeoSE2Oexa59g3Nv7SZNrzQZfHp0"),
   (2818, "17dVMIaaF0kzZofbUA4kJAIeYbVhrlNHt")]

/-- How the primary fetch `pd.read_csv(url, ...)` (unit.py line 119) ends:
a parsed table (possibly empty), the `pd.errors.EmptyDataError` /
`ValueError` family caught by the first handler, or any other exception
(network failure etc.) caught by the second handler. -/
inductive PrimaryResult
  | fetched (df : DF)
  | emptyDataErr
  | otherErr
deriving DecidableEq, Repr

/-- The `Unit` instance state touched by `_download`, plus the process-wide
records it appends to: `self.data`, `self.errors`, the failed-downloads
record (`Log.record_failed_downloads(unit_no, date, url)` entries), and the
textual log (`Log.write` lines, abbreviated). -/
structure DlState where
  data : Option DF
  errors : List String
  failed : List (ℤ × String × String)
  log : List String
deriving DecidableEq, Repr

/-- `date = url.split('/')[-1]` (unit.py line 117). -/
def dlDate (url : String) : String :=
  (splitOnStr url "/").getLastD ""

/-- `Unit._download` (unit.py lines 109-198) as a state transition.  The
fetch outcome and the cloud-storage fetch are parameters (`fallbackFetch
folder filename = none` models both "file not found" and any Drive API
exception; `some` is the parsed backup file).  The second component is the
fallback attempt made, as (folder id, filename), or `none` when no fallback
was attempted.  On `fetched` with a nonempty table the row order is fixed
and the table stored.  On empty data the dataset is cleared, the error
recorded, and the failure written to the failed-downloads record.  On any
other exception the source only attempts the Drive fallback for allow-listed
devices: the lines that would clear `self.data`, append the error, and
record the failed download are commented out (unit.py lines 193-198), so on
a fallback miss the state is unchanged apart from log lines. -/
def download (parseTs : String → Option ℚ)
    (fallbackFetch : String → String → Option DF)
    (unit_no : ℤ) (serial : String) (url : String)
    (primary : PrimaryResult) (st : DlState) :
    DlState × Option (String × String) :=
  let date := dlDate url
  let st0 : DlState :=
    { st with log := st.log ++ ["Downloading Unit " ++ toString unit_no] }
  let emptyCase : DlState × Option (String × String) :=
    ({ st0 with
        data := none,
        errors := st0.errors ++
          ["Unit " ++ toString unit_no ++ ": Empty data from " ++ url],
        failed := st0.failed ++ [(unit_no, date, url)],
        log := st0.log ++
          ["Unit " ++ toString unit_no ++ ": Empty data from " ++ url] },
      none)
  match primary with
  | PrimaryResult.fetched df =>
      if df.isEmpty then emptyCase
      else ({ st0 with data := some (fix_order parseTs df) }, none)
  | PrimaryResult.emptyDataErr => emptyCase
  | PrimaryResult.otherErr =>
      match alookup unit_no google_paths with
      | some folder =>
          let filename := serial ++ "_" ++ date ++ ".csv"
          match fallbackFetch folder filename with
          | some bdf =>
              if bdf.isEmpty then
                ({ st0 with log := st0.log ++
                    ["Downloaded file from Google Drive is empty"] },
                  some (folder, filename))
              else
                ({ st0 with
                    data := some (fix_order parseTs bdf),
                    log := st0.log ++
                      ["Successfully loaded " ++ filename ++ " for Unit " ++
                        toString unit_no ++ " from Google Drive"] },
                  some (folder, filename))
          | none =>
              ({ st0 with log := st0.log ++
                  ["File " ++ filename ++ " not found in Google Drive folder"] },
                some (folder, filename))
      | none => (st0, none)

/-- The save step of the bulk-download loop (main.py lines 668-673): after
the download call, if `unit.data` is not `None` and not empty, the dataset
is written to `Unit_<n>_<date_str>.csv`. -/
def saveStep (unit_no : ℤ) (date_str : String) (data : Option DF) :
    Option (String × DF) :=
  match data with
  | some df =>
      if df.isEmpty then none
      else some ("Unit_" ++ toString unit_no ++ "_" ++ date_str ++ ".csv", df)
  | none => none

/-- A concrete nonempty dataset used in concrete instances. -/
def demoDF : DF :=
  [("2024-01-01 00:00", ["1"]), ("2024-01-01 00:01", ["2"])]

/-- A download state already holding the previous day's dataset. -/
def demoState : DlState :=
  { data := some demoDF, errors := [], failed := [], log := [] }

/-! ### Per-device quality check (`Unit.check_quality`) -/

/-- The `Unit` instance state read and written by `check_quality`. -/
structure QCState where
  data : Option DF
  datatype : String
  errors : List String
  warnings : List String
deriving DecidableEq, Repr

/-- A CSV persisted by `check_quality` under `save_files`. -/
structure SaveFile where
  path : String
  contents : DF
deriving DecidableEq, Repr

/-- `Unit.check_quality` (unit.py lines 290-333) as a state transition.
The Rule Engine and Channel Registry live outside this repository's source
tree, so their outputs are parameters: `mrErrors`/`mrWarnings` from
`check_missing_rows`, `energyErrors`/`energyWarnings` from
`check_total_energy`, and `channelResults` the per-monitored-channel
(errors, warnings) pairs in loop order.  Returns the new state, the value
the method returns (`some (errors, warnings)` — or `none` for the bare
`return` on the hour-data path, i.e. Python `None`), and the files saved. -/
def check_quality (mrErrors mrWarnings energyErrors energyWarnings :
      List String)
    (channelResults : List (List String × List String)) (unit_no : ℤ)
    (last_month date : String) (save_files : Bool) (u : QCState) :
    QCState × Option (List String × List String) × List SaveFile :=
  match u.data with
  | none => (u, some (u.errors, u.warnings), [])
  | some df =>
    let u1 : QCState := { u with
        errors := u.errors ++ mrErrors,
        warnings := u.warnings ++ mrWarnings }
    if u.datatype = "Hour" then
      let saves := if save_files then
          [⟨u.datatype ++ "_Data/UNIT " ++ toString unit_no ++ "/Unit_" ++
              toString unit_no ++ "_" ++ last_month ++ ".csv", df⟩]
        else []
      (u1, none, saves)
    else
      let u2 : QCState := { u1 with
          errors := u1.errors ++ energyErrors ++
            (channelResults.map Prod.fst).flatten,
          warnings := u1.warnings ++ energyWarnings ++
            (channelResults.map Prod.snd).flatten }
      let saves := if save_files then
          [⟨u.datatype ++ "_Data/UNIT " ++ toString unit_no ++ "/Unit_" ++
              toString unit_no ++ "_" ++ date ++ ".csv", df⟩]
        else []
      (u2, some (u2.errors, u2.warnings), saves)

/-- An hour-granularity state holding a dataset. -/
def demoHourState : QCState :=
  { data := some demoDF, datatype := "Hour", errors := ["e0"],
    warnings := [] }

/-! ### Theorems -/

/-- Claim C2 (code_bug): the classification is NOT a partition.  A float NaN
— the value an absent CSV cell becomes under `pd.read_csv` — is counted both
as missing (via `pd.isna`) and as bad (it is a float whose range check
fails, and the first branch does not `continue` the loop).  So for a column
consisting of one absent value the tally is `(good, missing, bad) = (0, 1, 1)`
and `good + missing + bad = 2 ≠ 1`, contradicting the specified invariant
that each examined value falls in exactly one of the three classes. -/
theorem check_data_quality_nan_double_count :
    check_data_quality 0 100 (fun _ => none) [Cell.nan] = ⟨0, 1, 1⟩ ∧
      ¬ (0 + 1 + 1 = ([Cell.nan] : List Cell).length) := by
  constructor
  · rfl
  · decide

/-- Claim C4 (confirmed): for every populated data cell whose parsed counts
have a positive total, a problem percentage strictly over 5 shades the cell
red, strictly over 1 and at most 5 shades it yellow, and at most 1 leaves it
unshaded. -/
theorem conditional_formatting_thresholds (s : String) (g m b : ℕ)
    (hp : parse_counts s = some (g, m, b)) (hpos : 0 < g + m + b) :
    (((m : ℚ) + (b : ℚ)) / (((g + m + b : ℕ) : ℕ) : ℚ) * 100 > 5 →
        apply_conditional_formatting_cell s = some Fill.red) ∧
    (((m : ℚ) + (b : ℚ)) / (((g + m + b : ℕ) : ℕ) : ℚ) * 100 > 1 →
      ((m : ℚ) + (b : ℚ)) / (((g + m + b : ℕ) : ℕ) : ℚ) * 100 ≤ 5 →
        apply_conditional_formatting_cell s = some Fill.yellow) ∧
    (((m : ℚ) + (b : ℚ)) / (((g + m + b : ℕ) : ℕ) : ℚ) * 100 ≤ 1 →
        apply_conditional_formatting_cell s = some Fill.noFill) := by
  have hs : ¬ s = "" := by
    intro h
    rw [h] at hp
    have h0 : parse_counts "" = none := rfl
    rw [h0] at hp
    exact Option.noConfusion hp
  have key : ∀ f : Fill, shade_of g m b = f →
      apply_conditional_formatting_cell s = some f := by
    intro f hf
    unfold apply_conditional_formatting_cell
    rw [if_neg hs, hp]
    simp [hf]
  refine ⟨fun h5 => key _ ?_, fun h1 h5 => key _ ?_, fun h1 => key _ ?_⟩ <;>
    simp only [shade_of]
  · rw [if_pos hpos, if_pos h5]
  · rw [if_pos hpos, if_neg (not_lt.mpr h5), if_pos h1]
  · rw [if_pos hpos, if_neg (not_lt.mpr (le_trans h1 (by norm_num))),
      if_neg (not_lt.mpr h1)]

/-- Concrete instance for `conditional_formatting_thresholds`: the cell text
for counts (94, 0, 6) parses back and is shaded red (6 percent problems). -/
theorem conditional_formatting_thresholds_witness :
    apply_conditional_formatting_cell "Good: 94, Missing: 0, Bad: 6" =
      some Fill.red := by
  have hp : parse_counts "Good: 94, Missing: 0, Bad: 6" = some (94, 0, 6) := by
    rfl
  exact (conditional_formatting_thresholds _ 94 0 6 hp (by norm_num)).1
    (by norm_num)

/-- Claim C8 counterexample: a parseable space value of 50 GB — at or above
40 — is NOT treated as healthy: `float("50") < 40` fails, so the source takes
the warning/alert branch, while the claim says no alert is sent. -/
theorem check_space_forty_counterexample :
    toNatFloat "50" = some (FloatVal.fin 50) ∧ (40 : ℚ) ≤ 50 ∧
      check_space toNatFloat "50" = SpaceAction.alert ∧
      ¬ check_space toNatFloat "50" = SpaceAction.info := by
  refine ⟨by decide, by norm_num, rfl, by decide⟩

/-- Claim C8 (corrected): a space value parsing strictly between 1 and 40 GB
is logged as informational with no alert; a value at or below 1 GB, at or
above 40 GB, unparseable, or NaN takes the warning branch and sends the
email alert.  (The original claim said values at or above 40 GB are treated
as healthy; the source alerts on them, as `check_space_forty_counterexample`
shows.) -/
theorem check_space_spec (tryFloat : String → Option FloatVal)
    (space : String) :
    (∀ q, tryFloat space = some (FloatVal.fin q) → 1 < q → q < 40 →
        check_space tryFloat space = SpaceAction.info) ∧
    (∀ q, tryFloat space = some (FloatVal.fin q) → q ≤ 1 ∨ 40 ≤ q →
        check_space tryFloat space = SpaceAction.alert) ∧
    (tryFloat space = none → check_space tryFloat space = SpaceAction.alert) ∧
    (tryFloat space = some FloatVal.nan →
        check_space tryFloat space = SpaceAction.alert) := by
  refine ⟨fun q hq h1 h40 => ?_, fun q hq hor => ?_, fun hq => ?_, fun hq => ?_⟩
  · have hg : fv_gt (FloatVal.fin q) 1 = true := by
      simp only [fv_gt, decide_eq_true_eq]
      exact h1
    have hl : fv_lt (FloatVal.fin q) 40 = true := by
      simp only [fv_lt, decide_eq_true_eq]
      exact h40
    simp [check_space, hq, hg, hl]
  · rcases hor with h | h
    · have hg : fv_gt (FloatVal.fin q) 1 = false := by
        simp only [fv_gt, decide_eq_false_iff_not]
        exact not_lt.mpr h
      simp [check_space, hq, hg]
    · have hl : fv_lt (FloatVal.fin q) 40 = false := by
        simp only [fv_lt, decide_eq_false_iff_not]
        exact not_lt.mpr h
      simp [check_space, hq, hl]
  · simp [check_space, hq]
  · simp [check_space, hq, fv_gt]

/-- Concrete instance for `check_space_spec`: 20 GB is healthy, "bad" text
alerts. -/
theorem check_space_spec_witness :
    check_space toNatFloat "20" = SpaceAction.info ∧
      check_space toNatFloat "low" = SpaceAction.alert :=
  ⟨(check_space_spec toNatFloat "20").1 20 (by decide) (by norm_num)
      (by norm_num),
    (check_space_spec toNatFloat "low").2.2.1 (by decide)⟩

theorem parseCol_length {α : Type} (p : String → Option ℚ)
    {df : List (String × α)} {ts : List ℚ} (h : parseCol p df = some ts) :
    ts.length = df.length := by
  induction df generalizing ts with
  | nil =>
    simp only [parseCol, Option.some.injEq] at h
    simp [← h]
  | cons r rs ih =>
    simp only [parseCol] at h
    cases hr : p r.1 with
    | none => rw [hr] at h; exact absurd h (by simp)
    | some t =>
      rw [hr] at h
      cases hrs : parseCol p rs with
      | none => rw [hrs] at h; exact absurd h (by simp)
      | some ts' =>
        rw [hrs] at h
        simp only [Option.some.injEq] at h
        subst h
        simp [ih hrs]

theorem parseCol_append {α : Type} (p : String → Option ℚ)
    {l1 l2 : List (String × α)} {ts1 ts2 : List ℚ}
    (h1 : parseCol p l1 = some ts1) (h2 : parseCol p l2 = some ts2) :
    parseCol p (l1 ++ l2) = some (ts1 ++ ts2) := by
  induction l1 generalizing ts1 with
  | nil =>
    simp only [parseCol, Option.some.injEq] at h1
    simpa [← h1]
  | cons r rs ih =>
    simp only [parseCol] at h1
    cases hr : p r.1 with
    | none => rw [hr] at h1; exact absurd h1 (by simp)
    | some t =>
      rw [hr] at h1
      cases hrs : parseCol p rs with
      | none => rw [hrs] at h1; exact absurd h1 (by simp)
      | some ts' =>
        rw [hrs] at h1
        simp only [Option.some.injEq] at h1
        subst h1
        simp [parseCol, hr, ih hrs]

theorem parseCol_reverse {α : Type} (p : String → Option ℚ)
    {df : List (String × α)} {ts : List ℚ} (h : parseCol p df = some ts) :
    parseCol p df.reverse = some ts.reverse := by
  induction df generalizing ts with
  | nil =>
    simp only [parseCol, Option.some.injEq] at h
    simp [← h, parseCol]
  | cons r rs ih =>
    simp only [parseCol] at h
    cases hr : p r.1 with
    | none => rw [hr] at h; exact absurd h (by simp)
    | some t =>
      rw [hr] at h
      cases hrs : parseCol p rs with
      | none => rw [hrs] at h; exact absurd h (by simp)
      | some ts' =>
        rw [hrs] at h
        simp only [Option.some.injEq] at h
        subst h
        have htail : parseCol p [r] = some [t] := by simp [parseCol, hr]
        simpa using parseCol_append p (ih hrs) htail

theorem fix_order_short {α : Type} (p : String → Option ℚ)
    {df : List (String × α)} (h : df.length < 2) : fix_order p df = df := by
  simp [fix_order, h]

theorem fix_order_parse_fail {α : Type} (p : String → Option ℚ)
    {df : List (String × α)} (h : parseCol p df = none) :
    fix_order p df = df := by
  unfold fix_order
  by_cases hl : df.length < 2
  · simp [hl]
  · simp [hl, h]

theorem fix_order_parsed {α : Type} (p : String → Option ℚ)
    {df : List (String × α)} {t0 t1 : ℚ} {r : List ℚ}
    (h : parseCol p df = some (t0 :: t1 :: r)) :
    fix_order p df = if t1 < t0 then df.reverse else df := by
  have hlen : ¬ df.length < 2 := by
    have hl := parseCol_length p h
    simp only [List.length_cons] at hl
    omega
  unfold fix_order
  rw [if_neg hlen, h]

/-- Claim C3 counterexample: in the table below the first two timestamps
parse and descend (5 then 3), yet `_fix_order` does NOT reverse the table —
`pd.to_datetime` converts the whole column, the third entry fails to parse,
and the exception handler returns the input unchanged.  The claim, which
conditions only on the first two timestamps parsing, is therefore false. -/
theorem fix_order_unparseable_counterexample :
    toNatQ "5" = some 5 ∧ toNatQ "3" = some 3 ∧ (3 : ℚ) < 5 ∧
      fix_order toNatQ [("5", (0 : ℕ)), ("3", 0), ("zz", 0)] =
        [("5", 0), ("3", 0), ("zz", 0)] ∧
      ¬ fix_order toNatQ [("5", (0 : ℕ)), ("3", 0), ("zz", 0)] =
          ([("5", (0 : ℕ)), ("3", 0), ("zz", 0)]).reverse := by
  refine ⟨by decide, by decide, by norm_num, rfl, by decide⟩

/-- Claim C3 (corrected): when the WHOLE timestamp column parses and the
first two timestamps descend, `_fix_order` returns the table reversed; when
the first two parse in ascending order, or the table has fewer than two
rows, it returns the input unchanged; and re-application is idempotent
whenever the parsed column is monotone (ascending or descending).  (The
original claim required only the first two timestamps to parse — refuted by
`fix_order_unparseable_counterexample` — and asserted idempotence
unconditionally, which fails for a non-monotone table such as timestamps
5, 3, 1, 2, reversed to 2, 1, 3, 5 and then reversed back.) -/
theorem fix_order_spec {α : Type} (p : String → Option ℚ)
    (df : List (String × α)) :
    (∀ t0 t1 r, parseCol p df = some (t0 :: t1 :: r) → t1 < t0 →
        fix_order p df = df.reverse) ∧
    (∀ r0 r1 tl t0 t1, df = r0 :: r1 :: tl → p r0.1 = some t0 →
        p r1.1 = some t1 → t0 ≤ t1 → fix_order p df = df) ∧
    (df.length < 2 → fix_order p df = df) ∧
    (∀ ts, parseCol p df = some ts →
        (List.Chain' (· ≤ ·) ts ∨ List.Chain' (· ≥ ·) ts) →
        fix_order p (fix_order p df) = fix_order p df) := by
  refine ⟨fun t0 t1 r h hlt => ?_, fun r0 r1 tl t0 t1 hdf h0 h1 hle => ?_,
    fun h => fix_order_short p h, fun ts hts hmono => ?_⟩
  · rw [fix_order_parsed p h, if_pos hlt]
  · subst hdf
    cases htl : parseCol p tl with
    | none =>
      refine fix_order_parse_fail p ?_
      simp [parseCol, h0, h1, htl]
    | some ts2 =>
      have hall : parseCol p (r0 :: r1 :: tl) = some (t0 :: t1 :: ts2) := by
        simp [parseCol, h0, h1, htl]
      rw [fix_order_parsed p hall, if_neg (not_lt.mpr hle)]
  · by_cases hlen : df.length < 2
    · rw [fix_order_short p hlen, fix_order_short p hlen]
    · match ts, hts with
      | [], hts =>
        have hl := parseCol_length p hts
        simp only [List.length_nil] at hl
        omega
      | [t], hts =>
        have hl := parseCol_length p hts
        simp only [List.length_cons, List.length_nil] at hl
        omega
      | t0 :: t1 :: r, hts =>
        by_cases hlt : t1 < t0
        · rw [fix_order_parsed p hts, if_pos hlt]
          have hge : List.Chain' (· ≥ ·) (t0 :: t1 :: r) := by
            rcases hmono with hle | hge
            · exact absurd (List.chain'_cons.mp hle).1 (not_le.mpr hlt)
            · exact hge
          have hrev : parseCol p df.reverse =
              some ((t0 :: t1 :: r).reverse) := parseCol_reverse p hts
          have hlenrev : ¬ df.reverse.length < 2 := by
            have hl := parseCol_length p hts
            simp only [List.length_cons] at hl
            simp only [List.length_reverse]
            omega
          have hrevchain : List.Chain' (· ≤ ·) ((t0 :: t1 :: r).reverse) := by
            rw [List.chain'_reverse]
            exact hge
          match hsh : (t0 :: t1 :: r).reverse, hrev with
          | [], hrev =>
            have h0 : (t0 :: t1 :: r).reverse.length = 0 := by rw [hsh]; rfl
            simp only [List.length_reverse, List.length_cons] at h0
            omega
          | [s], hrev =>
            have h0 : (t0 :: t1 :: r).reverse.length = 1 := by rw [hsh]; rfl
            simp only [List.length_reverse, List.length_cons,
              List.length_nil] at h0
            omega
          | s0 :: s1 :: r2, hrev =>
            have hs01 : s0 ≤ s1 := by
              rw [hsh] at hrevchain
              exact (List.chain'_cons.mp hrevchain).1
            rw [fix_order_parsed p hrev, if_neg (not_lt.mpr hs01)]
        · rw [fix_order_parsed p hts, if_neg hlt, fix_order_parsed p hts,
            if_neg hlt]

/-- Concrete instance for `fix_order_spec`: a fully-parsed two-row descending
table is reversed. -/
theorem fix_order_spec_witness :
    fix_order toNatQ [("5", (0 : ℕ)), ("3", 0)] = [("3", 0), ("5", 0)] := by
  have h := (fix_order_spec toNatQ [("5", (0 : ℕ)), ("3", 0)]).1 5 3 []
    (by decide) (by norm_num)
  simpa using h

/-- Claim C6 (confirmed): a configuration directory of N well-formed JSON
files with pairwise distinct `unit_no` values loads to exactly N Unit
records in strictly ascending `unit_no` order. -/
theorem load_units_sorted (files : List (String × UnitRec))
    (hdist : ((files.filter (fun f => endsWithStr f.1 ".json")).map
        (fun f => f.2.unit_no)).Nodup) :
    (load_units files).length =
      (files.filter (fun f => endsWithStr f.1 ".json")).length ∧
    (load_units files).Pairwise (fun a b => a.unit_no < b.unit_no) := by
  have hperm : (load_units files).Perm
      ((files.filter (fun f => endsWithStr f.1 ".json")).map Prod.snd) :=
    List.perm_insertionSort unitLe _
  constructor
  · rw [hperm.length_eq, List.length_map]
  · have hsorted : List.Pairwise unitLe (load_units files) :=
      List.sorted_insertionSort unitLe _
    have hkeys : ((load_units files).map (fun u => u.unit_no)).Nodup := by
      refine ((hperm.map (fun u => u.unit_no)).nodup_iff).mpr ?_
      rw [List.map_map]
      exact hdist
    have hne : (load_units files).Pairwise
        (fun a b => a.unit_no ≠ b.unit_no) := List.pairwise_map.mp hkeys
    exact (hsorted.and hne).imp (fun h => lt_of_le_of_ne h.1 h.2)

/-- Concrete instance for `load_units_sorted`: three directory entries, two
of them JSON, load to the two records in ascending order. -/
theorem load_units_sorted_witness :
    (load_units [("b.json", demoUnit 2804), ("notes.txt", demoUnit 9),
        ("a.json", demoUnit 77)]).length =
      ([("b.json", demoUnit 2804), ("notes.txt", demoUnit 9),
        ("a.json", demoUnit 77)].filter
          (fun f => endsWithStr f.1 ".json")).length ∧
    (load_units [("b.json", demoUnit 2804), ("notes.txt", demoUnit 9),
        ("a.json", demoUnit 77)]).Pairwise
      (fun a b => a.unit_no < b.unit_no) :=
  load_units_sorted _ (by decide)

theorem alookup_append_left {κ β : Type} [DecidableEq κ]
    (l l' : List (κ × β)) (m : κ) (h : (alookup m l).isSome) :
    alookup m (l ++ l') = alookup m l := by
  induction l with
  | nil => simp [alookup] at h
  | cons kv rest ih =>
    by_cases hk : m = kv.1
    · simp [alookup, hk]
    · simp only [alookup, if_neg hk] at h ⊢
      exact ih h

theorem alookup_append_self {κ β : Type} [DecidableEq κ]
    (l : List (κ × β)) (m : κ) (v : β) (h : alookup m l = none) :
    alookup m (l ++ [(m, v)]) = some v := by
  induction l with
  | nil => simp [alookup]
  | cons kv rest ih =>
    by_cases hk : m = kv.1
    · simp [alookup, hk] at h
    · simp only [alookup, if_neg hk] at h ⊢
      exact ih h

theorem alookup_isSome_iff_mem {κ β : Type} [DecidableEq κ]
    (m : κ) (l : List (κ × β)) :
    (alookup m l).isSome ↔ m ∈ l.map Prod.fst := by
  induction l with
  | nil => simp [alookup]
  | cons kv rest ih =>
    by_cases hk : m = kv.1
    · simp [alookup, hk]
    · simp [alookup, if_neg hk, ih, hk]

theorem updateStep_fold_mono (process : String → Option Row)
    (months : List String) (acc : List (String × Row) × Bool) (m : String)
    (h : (alookup m acc.1).isSome) :
    (alookup m (months.foldl (updateStep process) acc).1).isSome := by
  induction months generalizing acc with
  | nil => exact h
  | cons m' rest ih =>
    refine ih (updateStep process acc m') ?_
    unfold updateStep
    by_cases hhit : (alookup m' acc.1).isSome
    · rw [if_pos hhit]; exact h
    · rw [if_neg hhit]
      cases hp : process m' with
      | none => exact h
      | some row =>
        simpa [alookup_append_left acc.1 [(m', row)] m h] using h

theorem updateStep_fold_covers (process : String → Option Row)
    (months : List String) (acc : List (String × Row) × Bool) :
    ∀ m ∈ months,
      (alookup m (months.foldl (updateStep process) acc).1).isSome ∨
        process m = none := by
  induction months generalizing acc with
  | nil => intro m hm; exact absurd hm (List.not_mem_nil m)
  | cons m' rest ih =>
    intro m hm
    rcases List.mem_cons.mp hm with rfl | hmem
    · by_cases hhit : (alookup m acc.1).isSome
      · left
        refine updateStep_fold_mono process rest _ m ?_
        unfold updateStep
        rw [if_pos hhit]
        exact hhit
      · cases hp : process m with
        | none => right; rfl
        | some row =>
          left
          refine updateStep_fold_mono process rest _ m ?_
          unfold updateStep
          rw [if_neg hhit, hp]
          rw [alookup_append_self acc.1 m row
            (Option.not_isSome_iff_eq_none.mp hhit)]
          rfl
    · exact ih (updateStep process acc m') m hmem

theorem updateStep_fold_fixed (process : String → Option Row)
    (months : List String) (disk : List (String × Row)) (b : Bool)
    (h : ∀ m ∈ months, (alookup m disk).isSome ∨ process m = none) :
    months.foldl (updateStep process) (disk, b) = (disk, b) := by
  induction months with
  | nil => rfl
  | cons m' rest ih =>
    have hstep : updateStep process (disk, b) m' = (disk, b) := by
      rcases h m' (List.mem_cons_self m' rest) with hhit | hp
      · unfold updateStep
        rw [if_pos hhit]
      · unfold updateStep
        by_cases hhit : (alookup m' disk).isSome
        · rw [if_pos hhit]
        · rw [if_neg hhit, hp]
    rw [List.foldl_cons, hstep]
    exact ih (fun m hm => h m (List.mem_cons_of_mem m' hm))

/-- Claim C5 (confirmed): against an unchanged data tree (hence unchanged
discovered period set), a second run of the per-device report update starting
from any reordering of the first run's saved report (the source re-sorts by
period before saving) appends zero rows, leaves every previously-written
row's text unchanged, and reports `new_data_added = false`, so the report
file is not re-saved. -/
theorem update_quality_report_idempotent (process : String → Option Row)
    (dataType : String) (files : List String)
    (report disk : List (String × Row))
    (hperm : disk.Perm
      (update_quality_report_unit process (monthsOf dataType files)
        report).1) :
    update_quality_report_unit process (monthsOf dataType files) disk =
      (disk, false) := by
  unfold update_quality_report_unit
  refine updateStep_fold_fixed process _ disk false ?_
  intro m hm
  rcases updateStep_fold_covers process (monthsOf dataType files)
      (report, false) m hm with h | h
  · left
    rw [alookup_isSome_iff_mem] at h ⊢
    exact ((hperm.map Prod.fst).mem_iff).mpr h
  · right
    exact h

/-- Concrete instance for `update_quality_report_idempotent`: one data file
for period 2024-01; after the first run wrote that period's row, the second
run returns the report unchanged with `new_data_added = false`. -/
theorem update_quality_report_idempotent_witness :
    update_quality_report_unit demoProcess
        (monthsOf "Minute" ["Minute_2024-01-05.csv"])
        [("2024-01", ["Good: 1, Missing: 0, Bad: 0"])] =
      ([("2024-01", ["Good: 1, Missing: 0, Bad: 0"])], false) :=
  update_quality_report_idempotent demoProcess "Minute"
    ["Minute_2024-01-05.csv"] []
    [("2024-01", ["Good: 1, Missing: 0, Bad: 0"])] (by decide)

/-- Claim C1 counterexample: device 1 is not in the allow-list; on a
non-empty-data fetch failure the dataset is NOT cleared (it keeps the
previous value), nothing is appended to the failed-downloads record, and no
error is appended — the recording lines of that handler are commented out in
the source — contradicting the claim that every unrecovered failure leaves
the dataset unset and is recorded. -/
theorem download_other_failure_not_recorded :
    (download toNatQ (fun _ _ => none) 1 "SER" "http://h/p/2024-01-02"
        PrimaryResult.otherErr demoState).1.data = some demoDF ∧
    (download toNatQ (fun _ _ => none) 1 "SER" "http://h/p/2024-01-02"
        PrimaryResult.otherErr demoState).1.failed = [] ∧
    (download toNatQ (fun _ _ => none) 1 "SER" "http://h/p/2024-01-02"
        PrimaryResult.otherErr demoState).1.errors = [] ∧
    ¬ (download toNatQ (fun _ _ => none) 1 "SER" "http://h/p/2024-01-02"
        PrimaryResult.otherErr demoState).1.data = none := by
  refine ⟨rfl, rfl, rfl, by decide⟩

/-- Claim C1 (corrected): no branch of `_download` lets an exception escape
(every case yields a result state), but the failure bookkeeping is split:
an empty-payload failure (`EmptyDataError`/empty table) clears the dataset,
appends the error, and records the failed download; any OTHER fetch failure
that the fallback does not recover leaves the dataset, the error list, and
the failed-downloads record exactly as they were (only log lines are
written), because the recording code in that handler is commented out. -/
theorem download_failure_effects (parseTs : String → Option ℚ)
    (fb : String → String → Option DF) (unit_no : ℤ) (serial url : String)
    (st : DlState) :
    ((download parseTs fb unit_no serial url PrimaryResult.emptyDataErr
        st).1.data = none ∧
      (download parseTs fb unit_no serial url PrimaryResult.emptyDataErr
        st).1.failed = st.failed ++ [(unit_no, dlDate url, url)] ∧
      (download parseTs fb unit_no serial url PrimaryResult.emptyDataErr
        st).1.errors = st.errors ++
          ["Unit " ++ toString unit_no ++ ": Empty data from " ++ url]) ∧
    (∀ df, df.isEmpty = true →
      (download parseTs fb unit_no serial url (PrimaryResult.fetched df)
        st).1.data = none ∧
      (download parseTs fb unit_no serial url (PrimaryResult.fetched df)
        st).1.failed = st.failed ++ [(unit_no, dlDate url, url)]) ∧
    (alookup unit_no google_paths = none →
      (download parseTs fb unit_no serial url PrimaryResult.otherErr
        st).1.data = st.data ∧
      (download parseTs fb unit_no serial url PrimaryResult.otherErr
        st).1.failed = st.failed ∧
      (download parseTs fb unit_no serial url PrimaryResult.otherErr
        st).1.errors = st.errors) ∧
    (∀ folder, alookup unit_no google_paths = some folder →
      (∀ fo fi, fb fo fi = none ∨ fb fo fi = some []) →
      (download parseTs fb unit_no serial url PrimaryResult.otherErr
        st).1.data = st.data ∧
      (download parseTs fb unit_no serial url PrimaryResult.otherErr
        st).1.failed = st.failed ∧
      (download parseTs fb unit_no serial url PrimaryResult.otherErr
        st).1.errors = st.errors) := by
  refine ⟨⟨rfl, rfl, rfl⟩, fun df hdf => ?_, fun hlk => ?_, fun folder hlk hfb => ?_⟩
  · simp [download, hdf]
  · simp [download, hlk]
  · rcases hfb folder (serial ++ "_" ++ dlDate url ++ ".csv") with hmiss | hempty
    · simp [download, hlk, hmiss]
    · simp [download, hlk, hempty]

/-- Concrete instance for `download_failure_effects`: an empty-payload
failure clears the dataset and records the failure; a non-empty-data failure
for non-allow-listed device 1 leaves the state unchanged. -/
theorem download_failure_effects_witness :
    (download toNatQ (fun _ _ => none) 1 "SER" "http://h/p/2024-01-02"
        PrimaryResult.emptyDataErr demoState).1.data = none ∧
    (download toNatQ (fun _ _ => none) 1 "SER" "http://h/p/2024-01-02"
        PrimaryResult.otherErr demoState).1.data = demoState.data := by
  refine ⟨(download_failure_effects toNatQ (fun _ _ => none) 1 "SER"
      "http://h/p/2024-01-02" demoState).1.1, ?_⟩
  exact ((download_failure_effects toNatQ (fun _ _ => none) 1 "SER"
      "http://h/p/2024-01-02" demoState).2.2.1 (by decide)).1

/-- Claim C7 (confirmed): the source's allow-list mapping agrees verbatim
with the specification's table; on a non-empty-data failure an allow-listed
device attempts exactly its mapped folder with filename
`<serial>_<date>.csv`; a device outside the allow-list never attempts the
fallback, whatever the fetch outcome. -/
theorem fallback_mapping_spec (parseTs : String → Option ℚ)
    (fb : String → String → Option DF) (unit_no : ℤ) (serial url : String)
    (st : DlState) :
    google_paths = spec_google_paths ∧
    (∀ folder, alookup unit_no google_paths = some folder →
      (download parseTs fb unit_no serial url PrimaryResult.otherErr st).2 =
        some (folder, serial ++ "_" ++ dlDate url ++ ".csv")) ∧
    (alookup unit_no google_paths = none → ∀ primary,
      (download parseTs fb unit_no serial url primary st).2 = none) := by
  refine ⟨rfl, fun folder hlk => ?_, fun hlk primary => ?_⟩
  · simp only [download, hlk]
    cases hfb : fb folder (serial ++ "_" ++ dlDate url ++ ".csv") with
    | none => rfl
    | some bdf =>
      by_cases hbe : bdf.isEmpty
      · simp [hbe]
      · simp [hbe]
  · cases primary with
    | fetched df =>
      by_cases hdf : df.isEmpty
      · simp [download, hdf]
      · simp [download, hdf]
    | emptyDataErr => rfl
    | otherErr =>
      simp only [download, hlk]

/-- Concrete instance for `fallback_mapping_spec`: device 77 attempts its
mapped folder with the serial-and-date filename; device 1 never attempts a
fallback. -/
theorem fallback_mapping_spec_witness :
    (download toNatQ (fun _ _ => none) 77 "SER77" "http://h/p/2024-01-02"
        PrimaryResult.otherErr demoState).2 =
      some ("1Z1ETfHlgitFOBx8SWqYiotkezFwL2ahb",
        "SER77" ++ "_" ++ dlDate "http://h/p/2024-01-02" ++ ".csv") ∧
    (download toNatQ (fun _ _ => none) 1 "SER" "http://h/p/2024-01-02"
        PrimaryResult.otherErr demoState).2 = none :=
  ⟨(fallback_mapping_spec toNatQ (fun _ _ => none) 77 "SER77"
      "http://h/p/2024-01-02" demoState).2.1
      "1Z1ETfHlgitFOBx8SWqYiotkezFwL2ahb" (by decide),
    (fallback_mapping_spec toNatQ (fun _ _ => none) 1 "SER"
      "http://h/p/2024-01-02" demoState).2.2 (by decide)
      PrimaryResult.otherErr⟩

/-- Claim C10 (confirmed): a non-empty-data download failure for a device
outside the allow-list (or whose fallback attempt yields nothing or an
empty file) leaves `unit.data` exactly as it was; the bulk-download loop's
save step, which fires whenever `unit.data` is a nonempty table, then writes
the PREVIOUS date's dataset under the NEW date's filename. -/
theorem stale_data_persistence (parseTs : String → Option ℚ)
    (fb : String → String → Option DF) (unit_no : ℤ)
    (serial url date2 : String) (st : DlState) (df : DF)
    (hdata : st.data = some df) (hne : df.isEmpty = false)
    (hnofb : alookup unit_no google_paths = none ∨
      ∀ fo fi, fb fo fi = none ∨ fb fo fi = some []) :
    (download parseTs fb unit_no serial url PrimaryResult.otherErr
      st).1.data = st.data ∧
    saveStep unit_no date2
      (download parseTs fb unit_no serial url PrimaryResult.otherErr
        st).1.data =
      some ("Unit_" ++ toString unit_no ++ "_" ++ date2 ++ ".csv", df) := by
  have hkeep : (download parseTs fb unit_no serial url PrimaryResult.otherErr
      st).1.data = st.data := by
    rcases hnofb with hlk | hfb
    · simp [download, hlk]
    · cases hlk : alookup unit_no google_paths with
      | none => simp [download, hlk]
      | some folder =>
        rcases hfb folder (serial ++ "_" ++ dlDate url ++ ".csv") with
          hmiss | hempty
        · simp [download, hlk, hmiss]
        · simp [download, hlk, hempty]
  refine ⟨hkeep, ?_⟩
  rw [hkeep, hdata]
  simp [saveStep, hne]

/-- Concrete instance for `stale_data_persistence`: device 1, holding the
2024-01-01 dataset, fails on 2024-01-02 with a network error; the old
dataset is saved under the 2024-01-02 filename. -/
theorem stale_data_persistence_witness :
    (download toNatQ (fun _ _ => none) 1 "SER" "http://h/p/2024-01-02"
      PrimaryResult.otherErr demoState).1.data = demoState.data ∧
    saveStep 1 "2024-01-02"
      (download toNatQ (fun _ _ => none) 1 "SER" "http://h/p/2024-01-02"
        PrimaryResult.otherErr demoState).1.data =
      some ("Unit_" ++ toString (1 : ℤ) ++ "_" ++ "2024-01-02" ++ ".csv",
        demoDF) :=
  stale_data_persistence toNatQ (fun _ _ => none) 1 "SER"
    "http://h/p/2024-01-02" "2024-01-02" demoState demoDF rfl rfl
    (Or.inl (by decide))

/-- Claim C9 counterexample: on the hour-granularity path `check_quality`
executes a bare `return` (unit.py line 312) — it returns Python `None`, not
the accumulated error and warning lists, so the claim that the lists are
returned in every case is false. -/
theorem check_quality_hour_returns_none :
    (check_quality ["e1"] [] [] [] [] 5 "2024-01" "2024-01-02" true
        demoHourState).2.1 = none ∧
    ¬ (check_quality ["e1"] [] [] [] [] 5 "2024-01" "2024-01-02" true
        demoHourState).2.1 =
      some ((check_quality ["e1"] [] [] [] [] 5 "2024-01" "2024-01-02" true
        demoHourState).1.errors,
        (check_quality ["e1"] [] [] [] [] 5 "2024-01" "2024-01-02" true
        demoHourState).1.warnings) := by
  refine ⟨rfl, by decide⟩

/-- Claim C9 (corrected): with no dataset, `check_quality` immediately
returns the accumulated error and warning lists, running no checks and
saving nothing; on the hour path it appends only the structural missing-row
results, persists the dataset to the period-named file when `save_files` is
set, and returns NO value (Python `None`) — not the lists; on the
minute path it returns the accumulated lists. -/
theorem check_quality_spec (mrE mrW eE eW : List String)
    (chR : List (List String × List String)) (unit_no : ℤ)
    (last_month date : String) (save_files : Bool) (u : QCState) :
    (u.data = none →
      check_quality mrE mrW eE eW chR unit_no last_month date save_files u =
        (u, some (u.errors, u.warnings), [])) ∧
    (∀ df, u.data = some df → u.datatype = "Hour" →
      check_quality mrE mrW eE eW chR unit_no last_month date save_files u =
        ({ u with errors := u.errors ++ mrE, warnings := u.warnings ++ mrW },
          none,
          if save_files then
            [⟨"Hour_Data/UNIT " ++ toString unit_no ++ "/Unit_" ++
                toString unit_no ++ "_" ++ last_month ++ ".csv", df⟩]
          else [])) ∧
    (∀ df, u.data = some df → ¬ u.datatype = "Hour" →
      (check_quality mrE mrW eE eW chR unit_no last_month date save_files
        u).2.1 =
      some ((check_quality mrE mrW eE eW chR unit_no last_month date
          save_files u).1.errors,
        (check_quality mrE mrW eE eW chR unit_no last_month date save_files
          u).1.warnings)) := by
  obtain ⟨d, dt, errs, warns⟩ := u
  refine ⟨fun hdata => ?_, fun df hdata hdt => ?_, fun df hdata hdt => ?_⟩
  · change d = none at hdata
    subst hdata
    rfl
  · change d = some df at hdata
    change dt = "Hour" at hdt
    subst hdata
    subst hdt
    rfl
  · change d = some df at hdata
    change ¬ dt = "Hour" at hdt
    subst hdata
    simp only [check_quality, if_neg hdt]

/-- Concrete instance for `check_quality_spec`: a no-dataset minute state
returns its accumulated lists untouched, and the hour state returns `none`
while saving the period-named file. -/
theorem check_quality_spec_witness :
    check_quality ["e1"] [] [] [] [] 5 "2024-01" "2024-01-02" true
        { data := none, datatype := "Minute", errors := ["e0"],
          warnings := ["w0"] } =
      ({ data := none, datatype := "Minute", errors := ["e0"],
          warnings := ["w0"] }, some (["e0"], ["w0"]), []) ∧
    check_quality ["e1"] [] [] [] [] 5 "2024-01" "2024-01-02" true
        demoHourState =
      ({ data := some demoDF, datatype := "Hour",
          errors := demoHourState.errors ++ ["e1"],
          warnings := demoHourState.warnings ++ [] },
        none,
        [⟨"Hour_Data/UNIT " ++ toString (5 : ℤ) ++ "/Unit_" ++
            toString (5 : ℤ) ++ "_" ++ "2024-01" ++ ".csv", demoDF⟩]) :=
  ⟨(check_quality_spec ["e1"] [] [] [] [] 5 "2024-01" "2024-01-02" true
      _).1 rfl,
    (check_quality_spec ["e1"] [] [] [] [] 5 "2024-01" "2024-01-02" true
      demoHourState).2.1 demoDF rfl rfl⟩

end MapleWest
